import Mathlib

/-!
Shallow embedding of `src/main.py` (Game Dev Vizier), a small Flask backend:
validate two required fields of a JSON body, interpolate one of them into a
fixed prompt, call an external completion client, and wrap the answer in a
JSON envelope with a fresh 8-character report id and a formatted timestamp.

Nondeterministic/environment inputs of the Python code are passed explicitly:
the resolved environment variables, the module-level client handle, the
external completion service (as a function from the call data to the returned
text), the fresh UUID string, and the current wall-clock time.
-/

namespace GameDevVizier

/-- A JSON-ish value as it can appear bound to a key of the request body.
The handlers only ever distinguish null from everything else and echo the
value back, so null, strings and booleans cover the behaviour under study. -/
inductive JValue where
  | null
  | str (s : String)
  | bool (b : Bool)
  deriving DecidableEq, Repr

/-- Python `str()` of a `JValue`, as used when the value is interpolated
into an f-string. -/
def JValue.pyStr : JValue → String
  | .null => "None"
  | .str s => s
  | .bool true => "True"
  | .bool false => "False"

/-- A parsed JSON object body: association list with the first binding of a
key authoritative (Python dict keys are unique). -/
abbrev Data := List (String × JValue)

/-- `data[field]` lookup: `none` models `field not in data`. -/
def findKey : Data → String → Option JValue
  | [], _ => none
  | (k, v) :: rest, key => if k = key then some v else findKey rest key

/-- The test `field not in data or data[field] is None` from
`process_game_analysis` (src/main.py line 72). -/
def missingOrNull (data : Data) (field : String) : Bool :=
  match findKey data field with
  | none => true
  | some .null => true
  | some _ => false

/-- The validation loop of `process_game_analysis` (src/main.py lines 70-73):
raise `ValueError(f'Missing required field: {field}')` at the first required
field that is absent or bound to null. -/
def checkRequired : List String → Data → Except String Unit
  | [], _ => .ok ()
  | f :: fs, data =>
    if missingOrNull data f then .error ("Missing required field: " ++ f)
    else checkRequired fs data

/-- The module-level OpenAI client handle: `OpenAI(api_key=api_key)`. -/
structure OpenAIClient where
  api_key : String
  deriving DecidableEq, Repr

/-- One chat message of the completion request. -/
structure Message where
  role : String
  content : String
  deriving DecidableEq, Repr

/-- The payload of `client.chat.completions.create(...)`
(src/main.py lines 55-63). -/
structure CompletionCall where
  model : String
  messages : List Message
  temperature : ℚ
  max_tokens : Nat
  deriving DecidableEq, Repr

/-- The external completion service: from the call payload to the returned
text `response.choices[0].message.content`. -/
abbrev Service := CompletionCall → String

/-- The fixed system-role message of `analyze_game` (src/main.py line 58). -/
def analysisSystemMessage : String :=
  "You are a top-tier game dev consultant and royal vizier who delivers precise, actionable insights with perfect spelling and grammar."

/-- The part of the `analyze_game` prompt template before the interpolated
game description (src/main.py lines 46-50). -/
def promptPre : String :=
  "\n    You are an expert video game designer and royal vizier. Using the game summary given, share one strong point about it, three ways it could be improved, and three ways the game idea could be made more marketable and have more mass appeal. Be sure to give specific, actionable recommendations and examples especially for how it could be more marketable. Sign off with \"Your humble vizier\".\n\n    Game Summary:\n    "

/-- The part of the `analyze_game` prompt template after the interpolated
game description (src/main.py lines 50-53). -/
def promptPost : String :=
  "\n\n    IMPORTANT: Use professional consulting language with perfect spelling and grammar and a royal vizier style as if talking to a king or queen. Format your response with clear sections using markdown headers.\n    "

/-- The f-string prompt of `analyze_game`: fixed template with the game
description interpolated at its single interpolation point. -/
def buildPrompt (business_data : String) : String :=
  promptPre ++ business_data ++ promptPost

/-- The degraded-mode message returned by `analyze_game` when the
module-level client is `None` (src/main.py line 44). -/
def clientNotInitializedMsg : String :=
  "OpenAI client is not initialized. Please check your API key and environment variables."

/-- `analyze_game(business_data)` (src/main.py lines 41-65). Returns the
analysis text together with the completion call made, if any: `none` when the
client handle is `None` (degraded mode, no network call). -/
def analyze_game (client : Option OpenAIClient) (svc : Service)
    (business_data : String) : String × Option CompletionCall :=
  match client with
  | none => (clientNotInitializedMsg, none)
  | some _ =>
    let call : CompletionCall :=
      { model := "gpt-4"
        messages := [⟨"system", analysisSystemMessage⟩, ⟨"user", buildPrompt business_data⟩]
        temperature := 85 / 100
        max_tokens := 2000 }
    (svc call, some call)

/-! ### Wall-clock time and `strftime("%B %d, %Y at %I:%M %p")` -/

/-- The components of `datetime.now()` that the long strftime format uses. -/
structure DateTime where
  year : Nat
  month : Nat
  day : Nat
  hour : Nat
  minute : Nat
  deriving DecidableEq, Repr

/-- Gregorian leap-year rule, for day-of-month validity. -/
def isLeapYear (y : Nat) : Bool :=
  (y % 4 == 0 && y % 100 != 0) || y % 400 == 0

/-- Number of days of a month (1-12) of a year. -/
def daysInMonth (month year : Nat) : Nat :=
  if month = 2 then (if isLeapYear year then 29 else 28)
  else if month = 4 ∨ month = 6 ∨ month = 9 ∨ month = 11 then 30
  else 31

/-- A valid wall-clock datetime as `datetime.now()` produces in the four
digit-year era (Python `datetime` caps the year at 9999). -/
def DateTime.Valid (dt : DateTime) : Prop :=
  1 ≤ dt.month ∧ dt.month ≤ 12 ∧
  1 ≤ dt.day ∧ dt.day ≤ daysInMonth dt.month dt.year ∧
  dt.hour < 24 ∧ dt.minute < 60 ∧
  1000 ≤ dt.year ∧ dt.year ≤ 9999

instance (dt : DateTime) : Decidable dt.Valid := by
  unfold DateTime.Valid
  infer_instance

/-- The full month name of strftime `%B` (C locale), months 1-12. -/
def monthName : Nat → String
  | 1 => "January"
  | 2 => "February"
  | 3 => "March"
  | 4 => "April"
  | 5 => "May"
  | 6 => "June"
  | 7 => "July"
  | 8 => "August"
  | 9 => "September"
  | 10 => "October"
  | 11 => "November"
  | 12 => "December"
  | _ => ""

/-- Decimal digit character. -/
def digitChar : Nat → Char
  | 0 => '0'
  | 1 => '1'
  | 2 => '2'
  | 3 => '3'
  | 4 => '4'
  | 5 => '5'
  | 6 => '6'
  | 7 => '7'
  | 8 => '8'
  | _ => '9'

/-- Two-digit zero-padded decimal of n < 100 (strftime `%d`, `%I`, `%M`). -/
def pad2 (n : Nat) : List Char :=
  [digitChar (n / 10), digitChar (n % 10)]

/-- Most-significant-first decimal digits, fuel-based so that it is
structurally recursive (fuel `n` always suffices: the number of digits of
`n` is at most `n` for `n ≥ 1`). -/
def natDecimalGo : Nat → Nat → List Char → List Char
  | 0, n, acc => digitChar (n % 10) :: acc
  | fuel + 1, n, acc =>
    if n < 10 then digitChar n :: acc
    else natDecimalGo fuel (n / 10) (digitChar (n % 10) :: acc)

/-- Decimal rendering of a natural number (strftime `%Y`). -/
def natDecimal (n : Nat) : List Char :=
  natDecimalGo n n []

/-- strftime `%I`: 12-hour clock value in 1..12. -/
def hour12 (h : Nat) : Nat :=
  if h % 12 = 0 then 12 else h % 12

/-- strftime `%p` (C locale): AM for hours 0-11, PM for hours 12-23. -/
def ampm (h : Nat) : List Char :=
  if h < 12 then ['A', 'M'] else ['P', 'M']

/-- The character sequence of
`now.strftime("%B %d, %Y at %I:%M %p")` (src/main.py line 91). -/
def fmtChars (dt : DateTime) : List Char :=
  (monthName dt.month).data ++
    ' ' :: (pad2 dt.day ++
      ',' :: ' ' :: (natDecimal dt.year ++
        ' ' :: 'a' :: 't' :: ' ' :: (pad2 (hour12 dt.hour) ++
          ':' :: (pad2 dt.minute ++
            ' ' :: ampm dt.hour))))

/-- `now.strftime("%B %d, %Y at %I:%M %p")` as a string. -/
def strftimeLong (dt : DateTime) : String :=
  String.mk (fmtChars dt)

/-! ### `process_game_analysis` and the route handlers -/

/-- The response dict built by `process_game_analysis`
(src/main.py lines 85-92). -/
structure AnalysisResponse where
  success : Bool
  message : String
  report_id : String
  business_name : JValue
  analysis : String
  generated_at : String
  deriving DecidableEq, Repr

/-- `process_game_analysis(data)` (src/main.py lines 67-92), with the fresh
UUID string and the current time passed explicitly. `.error` models a raised
`ValueError`; on success the completion call made (if any) is returned
alongside the response for frame reasoning. `report_id` is
`str(uuid.uuid4())[:8]`, modelled as taking the first 8 characters of the
UUID string. -/
def process_game_analysis (client : Option OpenAIClient) (svc : Service)
    (uuid_str : String) (now : DateTime) (data : Data) :
    Except String (AnalysisResponse × Option CompletionCall) := do
  checkRequired ["business_name", "game_data"] data
  let business_name := (findKey data "business_name").getD .null
  let game_data := (findKey data "game_data").getD .null
  let analysisCall := analyze_game client svc game_data.pyStr
  let report_id := String.mk (uuid_str.data.take 8)
  pure ({ success := true
          message := "Game analysis completed successfully!"
          report_id := report_id
          business_name := business_name
          analysis := analysisCall.1
          generated_at := strftimeLong now }, analysisCall.2)

/-- Body of an HTTP answer of the analyze/test endpoints: the success
envelope or the `{'error': ...}` object. -/
inductive ApiBody where
  | success (resp : AnalysisResponse)
  | failure (error : String)
  deriving DecidableEq, Repr

/-- An HTTP answer of the analyze/test endpoints, together with the upstream
completion call made while handling it (`none` when no call was made). -/
structure HttpResult where
  status : Nat
  body : ApiBody
  upstreamCall : Option CompletionCall
  deriving DecidableEq, Repr

/-- `api_analyze_game()` (src/main.py lines 113-130): `request.json` is
passed as `Option Data` (`none` models `request.json is None`); a raised
`ValueError` becomes a 400 with the error text. -/
def api_analyze_game (client : Option OpenAIClient) (svc : Service)
    (uuid_str : String) (now : DateTime) (body : Option Data) : HttpResult :=
  match body with
  | none => { status := 400, body := .failure "No JSON data provided", upstreamCall := none }
  | some data =>
    match process_game_analysis client svc uuid_str now data with
    | .error msg => { status := 400, body := .failure msg, upstreamCall := none }
    | .ok (resp, call) => { status := 200, body := .success resp, upstreamCall := call }

/-- The response of `health_check()` (src/main.py lines 132-142):
`openai_configured` is `bool(client)`. -/
structure HealthResponse where
  status : String
  timestamp : String
  service : String
  openai_configured : Bool
  deriving DecidableEq, Repr

/-- `health_check()` (src/main.py lines 132-142), with the ISO timestamp
passed explicitly. -/
def health_check (client : Option OpenAIClient) (now_iso : String) : HealthResponse :=
  { status := "healthy"
    timestamp := now_iso
    service := "Game Dev Vizier"
    openai_configured := client.isSome }

/-- The environment variables consulted by the module (src/main.py
lines 27-29 and 97). `none` models an unset variable. -/
structure Env where
  OPENAI_KEY : Option String
  OPENAI_API_KEY : Option String
  OPENAI_TOKEN : Option String
  deriving DecidableEq, Repr

/-- Python truthiness of `os.environ.get(...)`: an unset variable (None) and
the empty string are falsy. -/
def truthyStr : Option String → Bool
  | none => false
  | some s => !s.isEmpty

/-- Python `a or b` on optional strings: keep `a` when truthy, else `b`. -/
def pyOr (a b : Option String) : Option String :=
  if truthyStr a then a else b

/-- The module-level client initialization (src/main.py lines 25-39):
`api_key = os.environ.get('OPENAI_KEY') or os.environ.get('OPENAI_API_KEY')
or os.environ.get('OPENAI_TOKEN')`; when no truthy key is found the raised
`ValueError` is caught and the handle stays `None`. -/
def initClient (env : Env) : Option OpenAIClient :=
  match pyOr (pyOr env.OPENAI_KEY env.OPENAI_API_KEY) env.OPENAI_TOKEN with
  | none => none
  | some k => if k.isEmpty then none else some ⟨k⟩

/-- The response of `home()` (src/main.py lines 94-111). -/
structure HomeResponse where
  message : String
  status : String
  endpoints_health : String
  endpoints_analyze : String
  endpoints_test : String
  openai_key_set : Bool
  client_ready : Bool
  deriving DecidableEq, Repr

/-- `home()` (src/main.py lines 94-111): `openai_key` is resolved from only
`OPENAI_KEY` and `OPENAI_API_KEY`; `openai_key_set` is `bool(openai_key)` and
`client_ready` is `bool(client)`. -/
def home (env : Env) (client : Option OpenAIClient) : HomeResponse :=
  let openai_key := pyOr env.OPENAI_KEY env.OPENAI_API_KEY
  { message := "Game Dev Vizier API is running!"
    status := "healthy"
    endpoints_health := "/api/health"
    endpoints_analyze := "/api/analyze-game (POST)"
    endpoints_test := "/api/test (POST)"
    openai_key_set := truthyStr openai_key
    client_ready := client.isSome }

/-- The fixed sample payload of `test_endpoint()` (src/main.py
lines 147-152). -/
def sample_data : Data :=
  [("business_name", .str "Sample Game Idea"),
   ("game_data", .str "\n        A visual novel about a detective who solves mysteries about a team of thieves using his unique psychic abilities. The game features a rich storyline, engaging puzzles, and a cast of memorable characters. The game is set in a Victorian-era city and explores themes of mystery, suspense, and the psychic powers that must be used and defeated. The game is designed to be played on PC and mobile devices.\n        ")]

/-- `test_endpoint()` (src/main.py lines 144-162): same try/except shape as
`api_analyze_game`, on the fixed sample payload. -/
def test_endpoint (client : Option OpenAIClient) (svc : Service)
    (uuid_str : String) (now : DateTime) : HttpResult :=
  match process_game_analysis client svc uuid_str now sample_data with
  | .error msg => { status := 400, body := .failure msg, upstreamCall := none }
  | .ok (resp, call) => { status := 200, body := .success resp, upstreamCall := call }

/-- One incoming HTTP request, with the nondeterministic inputs the handler
consumes attached. -/
inductive Request where
  | root
  | health (now_iso : String)
  | analyzeGame (body : Option Data) (uuid_str : String) (now : DateTime)
  | testEndpoint (uuid_str : String) (now : DateTime)

/-- An HTTP answer of any of the JSON routes. -/
inductive Answer where
  | homeA (r : HomeResponse)
  | healthA (r : HealthResponse)
  | apiA (r : HttpResult)

/-- Dispatch of one request against the process state. The only process-wide
mutable binding of the module is the client handle, so the server state is
exactly that handle; each handler of src/main.py only reads it, which the
translation makes explicit by returning the state alongside the answer. -/
def handleRequest (env : Env) (st : Option OpenAIClient) (svc : Service) :
    Request → Option OpenAIClient × Answer
  | .root => (st, .homeA (home env st))
  | .health now_iso => (st, .healthA (health_check st now_iso))
  | .analyzeGame body uuid_str now => (st, .apiA (api_analyze_game st svc uuid_str now body))
  | .testEndpoint uuid_str now => (st, .apiA (test_endpoint st svc uuid_str now))

/-! ### A parser for the long timestamp format

The spec asserts that `generated_at` parses back to a valid calendar
date/time. The parser below inverts the strftime pattern
`"%B %d, %Y at %I:%M %p"`; the round-trip theorem recovers the exact
`DateTime` the formatter consumed. -/

/-- Character class used to isolate the month name (month names of `%B`
contain no space). -/
def notSpace (c : Char) : Bool := !(c == ' ')

/-- Decimal digit value of a character. -/
def charDigit? (c : Char) : Option Nat :=
  if c = '0' then some 0
  else if c = '1' then some 1
  else if c = '2' then some 2
  else if c = '3' then some 3
  else if c = '4' then some 4
  else if c = '5' then some 5
  else if c = '6' then some 6
  else if c = '7' then some 7
  else if c = '8' then some 8
  else if c = '9' then some 9
  else none

/-- Month number of a `%B` month name. -/
def monthNum (l : List Char) : Option Nat :=
  if l = "January".data then some 1
  else if l = "February".data then some 2
  else if l = "March".data then some 3
  else if l = "April".data then some 4
  else if l = "May".data then some 5
  else if l = "June".data then some 6
  else if l = "July".data then some 7
  else if l = "August".data then some 8
  else if l = "September".data then some 9
  else if l = "October".data then some 10
  else if l = "November".data then some 11
  else if l = "December".data then some 12
  else none

/-- Read exactly two digit characters as a number. -/
def parse2 : List Char → Option (Nat × List Char)
  | a :: b :: r =>
    match charDigit? a, charDigit? b with
    | some x, some y => some (x * 10 + y, r)
    | _, _ => none
  | _ => none

/-- Read exactly four digit characters as a number (the year of a wall-clock
timestamp has four digits). -/
def parse4 : List Char → Option (Nat × List Char)
  | a :: b :: c :: d :: r =>
    match charDigit? a, charDigit? b, charDigit? c, charDigit? d with
    | some x, some y, some z, some w => some (((x * 10 + y) * 10 + z) * 10 + w, r)
    | _, _, _, _ => none
  | _ => none

/-- Parse stage after `"<Month> <DD>, <YYYY> at <HH>:"`: minute then
AM/PM marker; rebuild the 24-hour value from `%I` and `%p`. -/
def afterHourParse (month day year h12 : Nat) (r7 : List Char) : Option DateTime :=
  match parse2 r7 with
  | some (minute, [' ', 'A', 'M']) =>
    some ⟨year, month, day, if h12 = 12 then 0 else h12, minute⟩
  | some (minute, [' ', 'P', 'M']) =>
    some ⟨year, month, day, if h12 = 12 then 12 else h12 + 12, minute⟩
  | _ => none

/-- Parse stage after `"<Month> <DD>, <YYYY> at "`: 12-hour value then
a colon. -/
def afterYearParse (month day year : Nat) (r5 : List Char) : Option DateTime :=
  match parse2 r5 with
  | some (h12, ':' :: r7) => afterHourParse month day year h12 r7
  | _ => none

/-- Parse stage after `"<Month> <DD>, "`: four-digit year then `" at "`. -/
def afterDayParse (month day : Nat) (r3 : List Char) : Option DateTime :=
  match parse4 r3 with
  | some (year, ' ' :: 'a' :: 't' :: ' ' :: r5) => afterYearParse month day year r5
  | _ => none

/-- Parse stage after `"<Month> "`: two-digit day then `", "`. -/
def afterMonthParse (month : Nat) (r1 : List Char) : Option DateTime :=
  match parse2 r1 with
  | some (day, ',' :: ' ' :: r3) => afterDayParse month day r3
  | _ => none

/-- Inverse of `fmtChars`: month name up to the first space, then the
remaining fixed-layout fields. -/
def parseLongChars (l : List Char) : Option DateTime :=
  match monthNum (l.takeWhile notSpace), l.dropWhile notSpace with
  | some month, ' ' :: r1 => afterMonthParse month r1
  | _, _ => none

/-- Inverse of `strftimeLong`. -/
def parseLong (s : String) : Option DateTime :=
  parseLongChars s.data

/-! ### Concrete sample inputs used by witnesses and counterexamples -/

/-- A concrete external completion service. -/
def svc0 : Service := fun _ => "Splendid analysis."

/-- A concrete `str(uuid.uuid4())` value (36 characters). -/
def uuid0 : String := "123e4567-e89b-12d3-a456-426614174000"

/-- A concrete valid wall-clock time. -/
def dt0 : DateTime := ⟨2026, 10, 12, 15, 30⟩

/-- A concrete well-formed request body. -/
def data0 : Data :=
  [("business_name", .str "Space Tactics"),
   ("game_data", .str "A turn-based tactics game set on a derelict space station.")]

/-- A request body whose two required fields are bound to empty strings. -/
def dataEmptyFields : Data :=
  [("business_name", .str ""), ("game_data", .str "")]

/-- A request body missing `game_data`. -/
def dataMissingGame : Data :=
  [("business_name", .str "X")]

/-- A concrete configured client handle. -/
def client0 : OpenAIClient := ⟨"sk-test"⟩

/-- A concrete environment in which only `OPENAI_TOKEN` is set. -/
def envTokenOnly : Env := ⟨none, none, some "sk-token"⟩

/-- The response that `process_game_analysis` assembles for `data0` with an
unconfigured client, the UUID `uuid0` and the time `dt0`. -/
def resp0 : AnalysisResponse :=
  { success := true
    message := "Game analysis completed successfully!"
    report_id := String.mk (uuid0.data.take 8)
    business_name := .str "Space Tactics"
    analysis := clientNotInitializedMsg
    generated_at := strftimeLong dt0 }

/-! ### Helper lemmas: the timestamp format round-trips -/

theorem charDigit?_digitChar : ∀ d : Nat, d < 10 → charDigit? (digitChar d) = some d := by
  decide

theorem parse2_pad2 (n : Nat) (h : n < 100) (r : List Char) :
    parse2 (pad2 n ++ r) = some (n, r) := by
  have h1 : n / 10 < 10 := by omega
  have h2 : n % 10 < 10 := by omega
  simp [pad2, parse2, charDigit?_digitChar _ h1, charDigit?_digitChar _ h2]
  omega

theorem natDecimalGo_big (fuel n : Nat) (acc : List Char) (hf : 1 ≤ fuel) (hn : ¬ n < 10) :
    natDecimalGo fuel n acc = natDecimalGo (fuel - 1) (n / 10) (digitChar (n % 10) :: acc) := by
  obtain ⟨f, rfl⟩ : ∃ f, fuel = f + 1 := ⟨fuel - 1, by omega⟩
  simp [natDecimalGo, hn]

theorem natDecimalGo_small (fuel n : Nat) (acc : List Char) (hf : 1 ≤ fuel) (hn : n < 10) :
    natDecimalGo fuel n acc = digitChar n :: acc := by
  obtain ⟨f, rfl⟩ : ∃ f, fuel = f + 1 := ⟨fuel - 1, by omega⟩
  simp [natDecimalGo, hn]

theorem natDecimal_four (y : Nat) (h1 : 1000 ≤ y) (h2 : y ≤ 9999) :
    natDecimal y =
      [digitChar (y / 1000), digitChar (y / 100 % 10), digitChar (y / 10 % 10),
       digitChar (y % 10)] := by
  rw [natDecimal]
  rw [natDecimalGo_big _ _ _ (by omega) (by omega)]
  rw [natDecimalGo_big _ _ _ (by omega) (by omega)]
  rw [natDecimalGo_big _ _ _ (by omega) (by omega)]
  rw [natDecimalGo_small _ _ _ (by omega) (by omega)]
  have e1 : y / 10 / 10 / 10 = y / 1000 := by omega
  have e2 : y / 10 / 10 = y / 100 := by omega
  rw [e1, e2]

theorem parse4_natDecimal (y : Nat) (h1 : 1000 ≤ y) (h2 : y ≤ 9999) (r : List Char) :
    parse4 (natDecimal y ++ r) = some (y, r) := by
  rw [natDecimal_four y h1 h2]
  have d1 : y / 1000 < 10 := by omega
  have d2 : y / 100 % 10 < 10 := by omega
  have d3 : y / 10 % 10 < 10 := by omega
  have d4 : y % 10 < 10 := by omega
  simp [parse4, charDigit?_digitChar _ d1, charDigit?_digitChar _ d2,
    charDigit?_digitChar _ d3, charDigit?_digitChar _ d4]
  omega

theorem monthName_notSpace : ∀ m : Nat, m < 13 → ∀ c ∈ (monthName m).data, notSpace c = true := by
  decide

theorem monthNum_monthName : ∀ m : Nat, m < 13 → 1 ≤ m → monthNum (monthName m).data = some m := by
  decide

theorem hour12_lt (h : Nat) : hour12 h < 100 := by
  unfold hour12
  split <;> omega

theorem parseLongChars_fmtChars (dt : DateTime) (hv : dt.Valid) :
    parseLongChars (fmtChars dt) = some dt := by
  obtain ⟨y, mo, d, hh, mi⟩ := dt
  unfold DateTime.Valid at hv
  simp only at hv
  obtain ⟨hmo1, hmo2, hd1, hd2, hhh, hmi, hy1, hy2⟩ := hv
  have hd100 : d < 100 := by
    have := hd2
    unfold daysInMonth at this
    split at this <;> [skip; split at this] <;> [split at this <;> omega; omega; omega]
  have hsp := monthName_notSpace mo (by omega)
  have ht : (fmtChars ⟨y, mo, d, hh, mi⟩).takeWhile notSpace = (monthName mo).data := by
    unfold fmtChars
    simp only
    rw [List.takeWhile_append_of_pos hsp]
    simp [notSpace]
  have hdr : (fmtChars ⟨y, mo, d, hh, mi⟩).dropWhile notSpace =
      ' ' :: (pad2 d ++ ',' :: ' ' :: (natDecimal y ++
        ' ' :: 'a' :: 't' :: ' ' :: (pad2 (hour12 hh) ++
          ':' :: (pad2 mi ++ ' ' :: ampm hh)))) := by
    unfold fmtChars
    simp only
    rw [List.dropWhile_append_of_pos hsp]
    simp [notSpace]
  unfold parseLongChars
  rw [ht, hdr, monthNum_monthName mo (by omega) hmo1]
  simp only
  unfold afterMonthParse
  rw [parse2_pad2 d hd100]
  simp only
  unfold afterDayParse
  rw [parse4_natDecimal y hy1 hy2]
  simp only
  unfold afterYearParse
  rw [parse2_pad2 (hour12 hh) (hour12_lt hh)]
  simp only
  unfold afterHourParse
  rw [parse2_pad2 mi (by omega)]
  by_cases hAM : hh < 12
  · simp only [ampm, if_pos hAM]
    simp only [Option.some.injEq, DateTime.mk.injEq, true_and]
    unfold hour12
    constructor
    · split <;> split <;> omega
    · trivial
  · simp only [ampm, if_neg hAM]
    simp only [Option.some.injEq, DateTime.mk.injEq, true_and]
    unfold hour12
    constructor
    · split <;> split <;> omega
    · trivial

theorem parseLong_strftimeLong (dt : DateTime) (hv : dt.Valid) :
    parseLong (strftimeLong dt) = some dt := by
  unfold parseLong strftimeLong
  exact parseLongChars_fmtChars dt hv

/-! ### Helper lemmas: shape of a successful `process_game_analysis` run -/

theorem process_ok_shape (client : Option OpenAIClient) (svc : Service) (uuid_str : String)
    (now : DateTime) (data : Data) (resp : AnalysisResponse) (call : Option CompletionCall)
    (hok : process_game_analysis client svc uuid_str now data = .ok (resp, call)) :
    checkRequired ["business_name", "game_data"] data = .ok () ∧
    resp = { success := true
             message := "Game analysis completed successfully!"
             report_id := String.mk (uuid_str.data.take 8)
             business_name := (findKey data "business_name").getD .null
             analysis := (analyze_game client svc ((findKey data "game_data").getD .null).pyStr).1
             generated_at := strftimeLong now } ∧
    call = (analyze_game client svc ((findKey data "game_data").getD .null).pyStr).2 := by
  unfold process_game_analysis at hok
  cases hcr : checkRequired ["business_name", "game_data"] data with
  | error e =>
    rw [hcr] at hok
    simp [Bind.bind, Except.bind] at hok
  | ok u =>
    cases u
    rw [hcr] at hok
    simp only [Bind.bind, Except.bind, pure, Except.pure, Except.ok.injEq, Prod.mk.injEq] at hok
    exact ⟨rfl, hok.1.symm, hok.2.symm⟩

theorem checkRequired_ok_of_present (data : Data)
    (hb : missingOrNull data "business_name" = false)
    (hg : missingOrNull data "game_data" = false) :
    checkRequired ["business_name", "game_data"] data = .ok () := by
  simp [checkRequired, hb, hg]

theorem checkRequired_two_ok (data : Data)
    (h : checkRequired ["business_name", "game_data"] data = .ok ()) :
    missingOrNull data "business_name" = false ∧ missingOrNull data "game_data" = false := by
  by_cases hb : missingOrNull data "business_name" = true
  · simp [checkRequired, hb] at h
  · by_cases hg : missingOrNull data "game_data" = true
    · simp [checkRequired, hb, hg] at h
    · exact ⟨by simpa using hb, by simpa using hg⟩

theorem findKey_of_not_missing (data : Data) (field : String)
    (h : missingOrNull data field = false) :
    some ((findKey data field).getD .null) = findKey data field := by
  unfold missingOrNull at h
  cases hf : findKey data field with
  | none => rw [hf] at h; simp at h
  | some v => simp

/-! ### The claims -/

/-- Claim C1: with the completion client handle `None` (no credential
resolved at startup), any analyze request whose two required fields are
present and non-null yields a success-shaped response (`success = true`) with
the plain-text explanatory message in the `analysis` field, and no exception
escapes (the handler returns a 200 result, with no upstream call); under the
same condition `GET /api/health` reports `openai_configured = false`. -/
theorem degraded_mode_returns_success (svc : Service) (uuid_str : String) (now : DateTime)
    (data : Data) (ts : String)
    (hb : missingOrNull data "business_name" = false)
    (hg : missingOrNull data "game_data" = false) :
    api_analyze_game none svc uuid_str now (some data) =
      { status := 200
        body := .success
          { success := true
            message := "Game analysis completed successfully!"
            report_id := String.mk (uuid_str.data.take 8)
            business_name := (findKey data "business_name").getD .null
            analysis := clientNotInitializedMsg
            generated_at := strftimeLong now }
        upstreamCall := none } ∧
    (health_check none ts).openai_configured = false := by
  constructor
  · have hpr : process_game_analysis none svc uuid_str now data =
        .ok ({ success := true
               message := "Game analysis completed successfully!"
               report_id := String.mk (uuid_str.data.take 8)
               business_name := (findKey data "business_name").getD .null
               analysis := clientNotInitializedMsg
               generated_at := strftimeLong now }, none) := by
      unfold process_game_analysis
      rw [checkRequired_ok_of_present data hb hg]
      rfl
    simp [api_analyze_game, hpr]
  · rfl

/-- Witness for C1 at the concrete body `data0`. -/
theorem degraded_mode_returns_success_witness :
    api_analyze_game none svc0 uuid0 dt0 (some data0) =
      { status := 200
        body := .success
          { success := true
            message := "Game analysis completed successfully!"
            report_id := String.mk (uuid0.data.take 8)
            business_name := (findKey data0 "business_name").getD .null
            analysis := clientNotInitializedMsg
            generated_at := strftimeLong dt0 }
        upstreamCall := none } ∧
    (health_check none "2026-10-12T00:00:00").openai_configured = false :=
  degraded_mode_returns_success svc0 uuid0 dt0 data0 "2026-10-12T00:00:00" rfl rfl

/-- Claim C2: a body in which `business_name` or `game_data` is absent or
null is answered with status 400 and body
`error = "Missing required field: <field>"` naming the (first) missing
field, and no completion call is made. -/
theorem missing_field_rejected (client : Option OpenAIClient) (svc : Service)
    (uuid_str : String) (now : DateTime) (data : Data)
    (h : missingOrNull data "business_name" = true ∨ missingOrNull data "game_data" = true) :
    api_analyze_game client svc uuid_str now (some data) =
      { status := 400
        body := .failure ("Missing required field: " ++
          (if missingOrNull data "business_name" then "business_name" else "game_data"))
        upstreamCall := none } := by
  by_cases hb : missingOrNull data "business_name" = true
  · unfold api_analyze_game process_game_analysis
    simp [checkRequired, hb]
  · have hg : missingOrNull data "game_data" = true := by
      rcases h with h | h
      · exact absurd h hb
      · exact h
    unfold api_analyze_game process_game_analysis
    simp [checkRequired, hb, hg]

/-- Witness for C2 at the concrete body `{"business_name": "X"}`. -/
theorem missing_field_rejected_witness :
    api_analyze_game none svc0 uuid0 dt0 (some dataMissingGame) =
      { status := 400
        body := .failure ("Missing required field: " ++
          (if missingOrNull dataMissingGame "business_name" then "business_name" else "game_data"))
        upstreamCall := none } :=
  missing_field_rejected none svc0 uuid0 dt0 dataMissingGame (Or.inr rfl)

/-- Counterexample to claim C3 as stated: a body binding both required
fields to the empty string passes validation and is processed on the
success path (status 200), not rejected as a client error. -/
theorem empty_fields_not_rejected :
    checkRequired ["business_name", "game_data"] dataEmptyFields = .ok () ∧
    (api_analyze_game none svc0 uuid0 dt0 (some dataEmptyFields)).status = 200 := by
  exact ⟨rfl, rfl⟩

/-- Claim C3 (amended): server-side validation of `business_name` and
`game_data` checks only presence and non-nullness; a body binding either
field to the empty string passes validation and is processed on the success
path rather than rejected. -/
theorem validation_checks_presence_only (client : Option OpenAIClient) (svc : Service)
    (uuid_str : String) (now : DateTime) (data : Data)
    (hb : missingOrNull data "business_name" = false)
    (hg : missingOrNull data "game_data" = false) :
    checkRequired ["business_name", "game_data"] data = .ok () ∧
    (api_analyze_game client svc uuid_str now (some data)).status = 200 := by
  refine ⟨checkRequired_ok_of_present data hb hg, ?_⟩
  have hpr : process_game_analysis client svc uuid_str now data =
      .ok ({ success := true
             message := "Game analysis completed successfully!"
             report_id := String.mk (uuid_str.data.take 8)
             business_name := (findKey data "business_name").getD .null
             analysis := (analyze_game client svc ((findKey data "game_data").getD .null).pyStr).1
             generated_at := strftimeLong now },
           (analyze_game client svc ((findKey data "game_data").getD .null).pyStr).2) := by
    unfold process_game_analysis
    rw [checkRequired_ok_of_present data hb hg]
    rfl
  simp [api_analyze_game, hpr]

/-- Witness for the amended C3 at the concrete empty-string body. -/
theorem validation_checks_presence_only_witness :
    checkRequired ["business_name", "game_data"] dataEmptyFields = .ok () ∧
    (api_analyze_game none svc0 uuid0 dt0 (some dataEmptyFields)).status = 200 :=
  validation_checks_presence_only none svc0 uuid0 dt0 dataEmptyFields rfl rfl

/-- Claim C4: a request whose parsed JSON body is `None` (no body /
unparsable body) is answered with status 400 and body exactly
`error = "No JSON data provided"`, with no upstream call. -/
theorem no_json_body_rejected (client : Option OpenAIClient) (svc : Service)
    (uuid_str : String) (now : DateTime) :
    api_analyze_game client svc uuid_str now none =
      { status := 400, body := .failure "No JSON data provided", upstreamCall := none } := rfl

/-- Claim C5: with a configured client, `analyze_game` invokes the
completion service exactly once, with model `"gpt-4"`, exactly the two fixed
messages (system persona, and the user prompt with the description
interpolated between the fixed template halves), temperature `0.85` and
`max_tokens = 2000`; the returned analysis is the text the service produced
for that call. -/
theorem completion_call_parameters (c : OpenAIClient) (svc : Service) (desc : String) :
    analyze_game (some c) svc desc =
      (svc { model := "gpt-4"
             messages := [⟨"system", analysisSystemMessage⟩, ⟨"user", buildPrompt desc⟩]
             temperature := 85 / 100
             max_tokens := 2000 },
       some { model := "gpt-4"
              messages := [⟨"system", analysisSystemMessage⟩, ⟨"user", buildPrompt desc⟩]
              temperature := 85 / 100
              max_tokens := 2000 }) ∧
    (buildPrompt desc).data = promptPre.data ++ desc.data ++ promptPost.data := by
  refine ⟨rfl, ?_⟩
  simp [buildPrompt]

/-- Claim C6: every successful `process_game_analysis` result carries a
`report_id` that is the first 8 characters of the fresh UUID string, hence
(UUID strings have 36 characters) exactly 8 characters long. -/
theorem report_id_eight_chars (client : Option OpenAIClient) (svc : Service)
    (uuid_str : String) (now : DateTime) (data : Data) (resp : AnalysisResponse)
    (call : Option CompletionCall)
    (h36 : uuid_str.data.length = 36)
    (hok : process_game_analysis client svc uuid_str now data = .ok (resp, call)) :
    resp.report_id = String.mk (uuid_str.data.take 8) ∧ resp.report_id.length = 8 := by
  obtain ⟨-, hresp, -⟩ := process_ok_shape client svc uuid_str now data resp call hok
  subst hresp
  refine ⟨rfl, ?_⟩
  show (uuid_str.data.take 8).length = 8
  rw [List.length_take, h36]
  decide

/-- Witness for C6 at the concrete UUID string `uuid0`. -/
theorem report_id_eight_chars_witness :
    resp0.report_id = String.mk (uuid0.data.take 8) ∧ resp0.report_id.length = 8 :=
  report_id_eight_chars none svc0 uuid0 dt0 data0 resp0 none rfl rfl

/-- Claim C7: every successful `process_game_analysis` result carries a
`generated_at` string in the strftime format `"%B %d, %Y at %I:%M %p"`
(it is exactly the formatter applied to the wall-clock time), and parsing
it back recovers that valid calendar date and time. -/
theorem generated_at_parses_back (client : Option OpenAIClient) (svc : Service)
    (uuid_str : String) (now : DateTime) (data : Data) (resp : AnalysisResponse)
    (call : Option CompletionCall)
    (hv : now.Valid)
    (hok : process_game_analysis client svc uuid_str now data = .ok (resp, call)) :
    resp.generated_at = strftimeLong now ∧
    parseLong resp.generated_at = some now ∧ now.Valid := by
  obtain ⟨-, hresp, -⟩ := process_ok_shape client svc uuid_str now data resp call hok
  subst hresp
  exact ⟨rfl, parseLong_strftimeLong now hv, hv⟩

/-- Witness for C7 at the concrete time `dt0`. -/
theorem generated_at_parses_back_witness :
    resp0.generated_at = strftimeLong dt0 ∧
    parseLong resp0.generated_at = some dt0 ∧ dt0.Valid :=
  generated_at_parses_back none svc0 uuid0 dt0 data0 resp0 none (by decide) rfl

/-- Claim C8: every successful `process_game_analysis` result has
`success = true` and echoes the input `business_name` value unchanged. -/
theorem success_and_echoed_name (client : Option OpenAIClient) (svc : Service)
    (uuid_str : String) (now : DateTime) (data : Data) (resp : AnalysisResponse)
    (call : Option CompletionCall)
    (hok : process_game_analysis client svc uuid_str now data = .ok (resp, call)) :
    resp.success = true ∧ some resp.business_name = findKey data "business_name" := by
  obtain ⟨hcr, hresp, -⟩ := process_ok_shape client svc uuid_str now data resp call hok
  obtain ⟨hb, -⟩ := checkRequired_two_ok data hcr
  subst hresp
  exact ⟨rfl, findKey_of_not_missing data "business_name" hb⟩

/-- Witness for C8 at the concrete body `data0`. -/
theorem success_and_echoed_name_witness :
    resp0.success = true ∧ some resp0.business_name = findKey data0 "business_name" :=
  success_and_echoed_name none svc0 uuid0 dt0 data0 resp0 none rfl

/-- Claim C9: handling any request leaves the process-wide state unchanged:
the only module-level mutable binding is the completion-client handle, and
the dispatch of every route returns it exactly as it was at startup. -/
theorem handlers_preserve_state (env : Env) (st : Option OpenAIClient) (svc : Service)
    (req : Request) :
    (handleRequest env st svc req).1 = st := by
  cases req <;> rfl

/-- Claim C10: `home()` computes `openai_key_set` from only `OPENAI_KEY` and
`OPENAI_API_KEY`, while client initialization also accepts `OPENAI_TOKEN`:
in an environment where only `OPENAI_TOKEN` is set (to a non-empty value),
the root endpoint reports `openai_key_set = false` yet `client_ready =
true`. -/
theorem token_only_env_mismatch (tok : String) (h : ¬ tok.isEmpty) :
    (home ⟨none, none, some tok⟩ (initClient ⟨none, none, some tok⟩)).openai_key_set = false ∧
    (home ⟨none, none, some tok⟩ (initClient ⟨none, none, some tok⟩)).client_ready = true := by
  constructor
  · rfl
  · show (initClient ⟨none, none, some tok⟩).isSome = true
    unfold initClient pyOr truthyStr
    simp [h]

/-- Witness for C10 at the concrete token value of `envTokenOnly`. -/
theorem token_only_env_mismatch_witness :
    (home ⟨none, none, some "sk-token"⟩ (initClient ⟨none, none, some "sk-token"⟩)).openai_key_set
      = false ∧
    (home ⟨none, none, some "sk-token"⟩ (initClient ⟨none, none, some "sk-token"⟩)).client_ready
      = true :=
  token_only_env_mismatch "sk-token" (by decide)

end GameDevVizier
